import Mathlib

/-!
Verification of the `remoroo_core` repository, whose sole source file is
`src/setup.py`:

```
from setuptools import setup, find_packages

setup(
    name="remoroo-core",
    version="0.1.2",
    packages=find_packages(where="src"),
    package_dir={"": "src"},
    install_requires=[
        "pydantic>=2.0.0",
    ],
)
```

The module is embedded as a small Python AST (`PyStmt` / `PyExpr`), together
with an evaluator for the argument expressions of the `setup` call.  The
behaviour of the external `find_packages` function (setuptools code, not part
of this repository) is kept abstract: it is a parameter of the evaluator, a
function of the ambient environment (file system, environment variables,
command-line arguments) and of its `where` argument.
-/

namespace RemorooCore

/-- Python expression forms occurring in the manifest module: string
literals, list literals, dict literals, and calls with positional and
keyword arguments. -/
inductive PyExpr where
  | strLit (s : String)
  | listLit (elems : List PyExpr)
  | dictLit (items : List (PyExpr × PyExpr))
  | call (fn : String) (args : List PyExpr) (kwargs : List (String × PyExpr))

/-- Python statement forms relevant to classifying the manifest module:
`from m import n1, n2, ...` imports, bare expression statements, and the
logic-carrying statement kinds (function definitions, class definitions,
assignments) that the module could in principle contain. -/
inductive PyStmt where
  | importFrom (module : String) (names : List String)
  | exprStmt (e : PyExpr)
  | funcDef (fname : String)
  | classDef (cname : String)
  | assign (target : String) (value : PyExpr)

/-- The keyword arguments of the `setup(...)` call in `src/setup.py`,
in source order. -/
def setupKwargs : List (String × PyExpr) :=
  [ ("name", .strLit "remoroo-core"),
    ("version", .strLit "0.1.2"),
    ("packages", .call "find_packages" [] [("where", .strLit "src")]),
    ("package_dir", .dictLit [(.strLit "", .strLit "src")]),
    ("install_requires", .listLit [.strLit "pydantic>=2.0.0"]) ]

/-- The `setup(...)` call expression of `src/setup.py`: no positional
arguments, five keyword arguments. -/
def setupCallExpr : PyExpr := .call "setup" [] setupKwargs

/-- The module `src/setup.py` as a list of top-level statements: one
statement importing from setuptools, then one expression statement (the
`setup` call). -/
def setupModule : List PyStmt :=
  [ .importFrom "setuptools" ["setup", "find_packages"],
    .exprStmt setupCallExpr ]

/-- True on the statement kinds that define executable logic of the
module itself: function definitions, class definitions and assignments. -/
def PyStmt.definesLogic : PyStmt → Bool
  | .funcDef _ => true
  | .classDef _ => true
  | .assign _ _ => true
  | .importFrom _ _ => false
  | .exprStmt _ => false

mutual

/-- True on expressions that are Python literals built from string,
list and dict literal syntax alone (no calls, no names). -/
def PyExpr.isLiteral : PyExpr → Bool
  | .strLit _ => true
  | .listLit elems => allLiteral elems
  | .dictLit items => allLiteralItems items
  | .call _ _ _ => false

/-- All expressions of the list are literals. -/
def allLiteral : List PyExpr → Bool
  | [] => true
  | e :: rest => e.isLiteral && allLiteral rest

/-- All keys and values of the dict-item list are literals. -/
def allLiteralItems : List (PyExpr × PyExpr) → Bool
  | [] => true
  | (k, v) :: rest => k.isLiteral && v.isLiteral && allLiteralItems rest

end

/-- True on expressions that are declarative manifest arguments: either a
literal, or a call to the imported setuptools helper `find_packages` whose
arguments are all literals. -/
def PyExpr.isDeclarativeArg : PyExpr → Bool
  | .call "find_packages" args kwargs =>
      allLiteral args && allLiteral (kwargs.map Prod.snd)
  | e => e.isLiteral

/-! ### Evaluation of the manifest -/

/-- The ambient environment visible to a Python process: environment
variables, command-line arguments, and a file-system listing. -/
structure Env where
  envVars : List (String × String)
  argv : List String
  listDir : String → List String

/-- Values produced by evaluating the manifest argument expressions.
`packages` is the (abstract) result of the external `find_packages` call. -/
inductive PyVal where
  | str (s : String)
  | list (elems : List PyVal)
  | dict (items : List (PyVal × PyVal))
  | packages (pkgs : List String)

mutual

/-- Evaluate a manifest argument expression.  `fp` is the (external,
environment-dependent) behaviour of setuptools `find_packages`; `env` the
ambient environment.  String, list and dict literals evaluate to the
corresponding values; a call to `find_packages` with a literal `where`
keyword evaluates to whatever `fp` returns; any other call fails. -/
def evalExpr (fp : Env → String → List String) (env : Env) : PyExpr → Except String PyVal
  | .strLit s => .ok (.str s)
  | .listLit elems => do
      let vs ← evalExprList fp env elems
      pure (.list vs)
  | .dictLit items => do
      let vs ← evalExprItems fp env items
      pure (.dict vs)
  | .call fn args kwargs =>
      if fn = "find_packages" then
        match args, kwargs with
        | [], [("where", .strLit w)] => .ok (.packages (fp env w))
        | _, _ => .error "TypeError"
      else .error ("NameError: name is not defined: " ++ fn)

/-- Evaluate every expression of a list, left to right. -/
def evalExprList (fp : Env → String → List String) (env : Env) :
    List PyExpr → Except String (List PyVal)
  | [] => .ok []
  | e :: rest => do
      let v ← evalExpr fp env e
      let vs ← evalExprList fp env rest
      pure (v :: vs)

/-- Evaluate every key-value pair of a dict-item list, left to right. -/
def evalExprItems (fp : Env → String → List String) (env : Env) :
    List (PyExpr × PyExpr) → Except String (List (PyVal × PyVal))
  | [] => .ok []
  | (k, v) :: rest => do
      let kv ← evalExpr fp env k
      let vv ← evalExpr fp env v
      let vs ← evalExprItems fp env rest
      pure ((kv, vv) :: vs)

end

/-- Evaluate a keyword-argument list, keeping the keyword names. -/
def evalKwargs (fp : Env → String → List String) (env : Env)
    (kwargs : List (String × PyExpr)) : Except String (List (String × PyVal)) :=
  kwargs.mapM fun kv => do
    let v ← evalExpr fp env kv.2
    pure (kv.1, v)

/-- Run the authored part of the manifest: evaluate every argument of the
`setup(...)` call.  (The `setup` function itself is external setuptools
code.) -/
def runManifest (fp : Env → String → List String) (env : Env) :
    Except String (List (String × PyVal)) :=
  evalKwargs fp env setupKwargs

/-- The declared metadata of an evaluated manifest: the values bound to
`name`, `version`, `install_requires` and `package_dir` (the source
layout), or `none` if evaluation failed. -/
def declaredMetadata (r : Except String (List (String × PyVal))) :
    Option (Option PyVal × Option PyVal × Option PyVal × Option PyVal) :=
  match r with
  | .error _ => none
  | .ok kvs =>
      some (kvs.lookup "name", kvs.lookup "version",
            kvs.lookup "install_requires", kvs.lookup "package_dir")

/-! ### Requirement strings and version constraints -/

/-- A version constraint as declared in a requirement string; the manifest
only uses minimum-version (`>=`) constraints. -/
inductive VersionConstraint where
  | ge (v : List Nat)
  deriving Repr, DecidableEq

/-- The decimal digit denoted by a character, if any. -/
def charDigit? (c : Char) : Option Nat :=
  if c.isDigit then some (c.toNat - 48) else none

/-- The natural number denoted by a nonempty string of decimal digits,
if the character list is of that form. -/
def natOfChars (cs : List Char) : Option Nat :=
  match cs with
  | [] => none
  | _ => cs.foldlM (fun acc c => (charDigit? c).map fun d => acc * 10 + d) 0

/-- Split a character list at every occurrence of the separator
character; `acc` holds the current component, reversed. -/
def splitCharsOn (sep : Char) : List Char → List Char → List (List Char)
  | acc, [] => [acc.reverse]
  | acc, c :: rest =>
      if c = sep then acc.reverse :: splitCharsOn sep [] rest
      else splitCharsOn sep (c :: acc) rest

/-- Parse a dotted version string such as `2.0.0` into its numeric
components. -/
def parseVersion (s : String) : Option (List Nat) :=
  (splitCharsOn (Char.ofNat 46) [] s.data).mapM natOfChars

/-- Split a character list at the first occurrence of the two-character
separator `>=`; `acc` holds the portion before it, reversed. -/
def splitCharsAtGe : List Char → List Char → Option (List Char × List Char)
  | acc, c1 :: c2 :: rest =>
      if c1 = Char.ofNat 62 ∧ c2 = Char.ofNat 61 then some (acc.reverse, rest)
      else splitCharsAtGe (c1 :: acc) (c2 :: rest)
  | _, _ => none

/-- Parse a requirement string of the form `name>=version` into the
distribution name and its minimum-version constraint. -/
def parseRequirement (s : String) : Option (String × VersionConstraint) :=
  match splitCharsAtGe [] s.data with
  | some (n, v) => (parseVersion (String.mk v)).map fun ver => (String.mk n, .ge ver)
  | none => none

/-- The `install_requires` list of the manifest, as the literal strings of
the source. -/
def install_requires : List String := ["pydantic>=2.0.0"]

/-- The `name` argument of the manifest. -/
def declaredName : String := "remoroo-core"

/-- The `version` argument of the manifest. -/
def declaredVersion : String := "0.1.2"

/-- The `where` keyword argument passed to `find_packages` in the
manifest. -/
def findPackagesWhere : String := "src"

/-- The `package_dir` mapping of the manifest, as an association list. -/
def package_dir : List (String × String) := [("", "src")]

/-- The relative path of a dotted package name: every dot becomes a
slash. -/
def dotsToSlashes (pkg : String) : String :=
  String.mk (pkg.data.map fun c => if c = Char.ofNat 46 then Char.ofNat 47 else c)

/-- Resolve the directory of a discovered package under a `package_dir`
mapping, following the setuptools convention: an exact entry for the
package wins, otherwise the root entry `""` prepends its directory to the
package path (dots become slashes). -/
def resolvePackagePath (pd : List (String × String)) (pkg : String) : String :=
  match pd.lookup pkg with
  | some d => d
  | none =>
      match pd.lookup "" with
      | some root => root ++ "/" ++ dotsToSlashes pkg
      | none => dotsToSlashes pkg

/-- True on `from ... import ...` statements. -/
def PyStmt.isImport : PyStmt → Bool
  | .importFrom _ _ => true
  | _ => false

/-- True on a bare expression statement that is a call to `setup` with no
positional arguments and only declarative keyword arguments. -/
def PyStmt.isDeclarativeSetupCall : PyStmt → Bool
  | .exprStmt (.call "setup" [] kwargs) =>
      (kwargs.map Prod.snd).all PyExpr.isDeclarativeArg
  | _ => false

/-! ## Claims -/

/-- Claim C1: the manifest declares exactly one runtime dependency, and
that entry is constrained to a minimum version of 2.0.0 (a `>=`
constraint with version components `2.0.0`); no other runtime dependency
is declared. -/
theorem C1_single_dependency_min_version :
    setupKwargs.lookup "install_requires"
        = some (.listLit [.strLit "pydantic>=2.0.0"]) ∧
    install_requires.length = 1 ∧
    install_requires.map parseRequirement
        = [some ("pydantic", VersionConstraint.ge [2, 0, 0])] :=
  ⟨rfl, rfl, by decide⟩

/-- Claim C2: the package name declared by the manifest equals the string
`remoroo-core`. -/
theorem C2_declared_name :
    declaredName = "remoroo-core" ∧
    setupKwargs.lookup "name" = some (.strLit "remoroo-core") :=
  ⟨rfl, rfl⟩

/-- Claim C3: the version string declared by the manifest equals
`0.1.2`. -/
theorem C3_declared_version :
    declaredVersion = "0.1.2" ∧
    setupKwargs.lookup "version" = some (.strLit "0.1.2") :=
  ⟨rfl, rfl⟩

/-- Claim C4: the manifest declares the source root to be the directory
`src` (the root entry of `package_dir` maps to `src`) and configures
package discovery to search within it (`find_packages` is invoked with
keyword argument `where` equal to `"src"`). -/
theorem C4_source_root_and_discovery :
    setupKwargs.lookup "packages"
        = some (.call "find_packages" [] [("where", .strLit "src")]) ∧
    findPackagesWhere = "src" ∧
    package_dir.lookup "" = some "src" :=
  ⟨rfl, rfl, rfl⟩

/-- Claim C5: the entire authored module is one import statement plus a
single call to `setup` with declarative (literal or literal-argument
`find_packages`) keyword arguments; no statement defines a function, a
class, or any other executable logic of the module itself. -/
theorem C5_no_executable_logic :
    setupModule.length = 2 ∧
    (setupModule.all fun s => s.isImport || s.isDeclarativeSetupCall) = true ∧
    (setupModule.countP fun s => s.isDeclarativeSetupCall) = 1 ∧
    (setupModule.countP fun s => s.definesLogic) = 0 :=
  ⟨rfl, rfl, rfl, rfl⟩

/-- Claim C6: evaluating the manifest can raise no error: for every
behaviour of the external `find_packages` function and every ambient
environment, evaluation of the arguments of the `setup` call succeeds
with the declared metadata. -/
theorem C6_evaluation_never_fails (fp : Env → String → List String) (env : Env) :
    runManifest fp env = .ok
      [("name", .str "remoroo-core"),
       ("version", .str "0.1.2"),
       ("packages", .packages (fp env "src")),
       ("package_dir", .dict [(.str "", .str "src")]),
       ("install_requires", .list [.str "pydantic>=2.0.0"])] :=
  rfl

/-- Claim C7: the manifest is deterministic and closed: its declared
metadata (name, version, dependency set, source layout) is the same under
any two ambient environments — indeed under any two behaviours of the
external `find_packages` — so it depends on no environment variable,
command-line argument or file. -/
theorem C7_metadata_deterministic
    (fp1 fp2 : Env → String → List String) (e1 e2 : Env) :
    declaredMetadata (runManifest fp1 e1) = declaredMetadata (runManifest fp2 e2) :=
  rfl

/-- Claim C8: the `setup` call passes exactly the five keyword arguments
`name`, `version`, `packages`, `package_dir` and `install_requires`, in
that order, with no positional argument; in particular it declares no
entry points, extras, classifiers or Python version constraint. -/
theorem C8_exactly_five_kwargs :
    setupCallExpr = .call "setup" [] setupKwargs ∧
    setupKwargs.map Prod.fst
        = ["name", "version", "packages", "package_dir", "install_requires"] ∧
    setupKwargs.lookup "entry_points" = none ∧
    setupKwargs.lookup "extras_require" = none ∧
    setupKwargs.lookup "classifiers" = none ∧
    setupKwargs.lookup "python_requires" = none :=
  ⟨rfl, by decide, rfl, rfl, rfl, rfl⟩

/-- Claim C9: the single declared dependency is exactly the requirement
string `pydantic>=2.0.0`, whose distribution name is `pydantic`. -/
theorem C9_dependency_is_pydantic :
    install_requires = ["pydantic>=2.0.0"] ∧
    (parseRequirement "pydantic>=2.0.0").map Prod.fst = some "pydantic" :=
  ⟨rfl, by decide⟩

/-- Claim C10: the package-directory mapping and the discovery root
agree: `package_dir` maps the root package `""` to `src`, the same
directory passed as `where` to `find_packages`, so every discovered
(nonempty-named) package resolves to a path under the single root
`src`. -/
theorem C10_package_dir_agrees_with_discovery_root
    (pkg : String) (h : pkg ≠ "") :
    package_dir = [("", findPackagesWhere)] ∧
    package_dir.lookup "" = some "src" ∧
    resolvePackagePath package_dir pkg = "src/" ++ dotsToSlashes pkg := by
  refine ⟨rfl, rfl, ?_⟩
  simp [resolvePackagePath, package_dir, List.lookup, beq_eq_false_iff_ne.mpr h]

/-- Witness for C10 at the concrete package name `remoroo_core.models`. -/
theorem C10_package_dir_agrees_with_discovery_root_witness :
    "remoroo_core.models" ≠ "" ∧
    (package_dir = [("", findPackagesWhere)] ∧
     package_dir.lookup "" = some "src" ∧
     resolvePackagePath package_dir "remoroo_core.models"
        = "src/" ++ dotsToSlashes "remoroo_core.models") :=
  ⟨by decide,
   C10_package_dir_agrees_with_discovery_root "remoroo_core.models" (by decide)⟩

end RemorooCore
